import Mathlib

/-!
Verification of the cross-tracker mirroring subsystem of itms-developer-setup
(`scripts/sync_manager.py`, `scripts/github_integration.py`,
`scripts/monday_integration.py`).

Strings are embedded as `List Char`; Python's substring operator `in` is
embedded as `containsSub`, `str.replace` as `replaceAll`, `str.find` as
`findFrom`, and `str.lower` as `lower`.  Fallible create calls are modelled
by a success oracle (`ok`), matching the per-item `try/except` blocks in the
source.  The external stores (Monday board, GitHub repository) are modelled
as in-memory collections with fresh-id counters; a successful create appends
an item carrying exactly the requested title, as the real services do.
-/

namespace ItmsSync

/-- Embedding of Python's substring test: `containsSub pat s` is `pat in s`. -/
def containsSub (pat : List Char) : List Char → Bool
  | [] => pat.isEmpty
  | c :: rest => pat.isPrefixOf (c :: rest) || containsSub pat rest

/-- Embedding of Python `str.lower` (ASCII). -/
def lower (s : List Char) : List Char := s.map Char.toLower

/-- Decimal rendering of a number, as Python string interpolation does. -/
def natChars (n : Nat) : List Char := (Nat.repr n).data

/-- Fuel-driven worker for `replaceAll`; each step consumes at least one
character of the subject, so fuel `s.length` is always enough. -/
def replaceFuel (old new : List Char) : Nat → List Char → List Char
  | 0, s => s
  | _ + 1, [] => []
  | f + 1, c :: rest =>
    if !old.isEmpty && old.isPrefixOf (c :: rest) then
      new ++ replaceFuel old new f (rest.drop (old.length - 1))
    else
      c :: replaceFuel old new f rest

/-- Embedding of Python `s.replace(old, new)` for nonempty `old`: replaces
every non-overlapping occurrence, scanning left to right. -/
def replaceAll (old new s : List Char) : List Char := replaceFuel old new s.length s

/-- Index of the first occurrence of `sub` in a list, if any. -/
def findIdx' (sub : List Char) : List Char → Option Nat
  | [] => if sub.isEmpty then some 0 else none
  | c :: rest =>
    if sub.isPrefixOf (c :: rest) then some 0 else (findIdx' sub rest).map (· + 1)

/-- Embedding of Python `s.find(sub, start)` (with `none` for `-1`). -/
def findFrom (sub s : List Char) (start : Nat) : Option Nat :=
  (findIdx' sub (s.drop start)).map (· + start)

/-- Modelled from the spec (§4.1 Identity Marker Codec): the opening pattern
`"[<tag>-"` of a mirror marker.  The codec itself is not implemented as a
function in the source; the source call sites inline the marker text. -/
def openPat (tag : List Char) : List Char := '[' :: (tag ++ ['-'])

/-- Modelled from the spec (§4.1): `Encode(tag, id) = "[<tag>-<id>]"`. -/
def Encode (tag id : List Char) : List Char := openPat tag ++ id ++ [']']

/-- Suffix of the list after the first occurrence of `pat`, if any. -/
def dropAfterFirst (pat : List Char) : List Char → Option (List Char)
  | [] => if pat.isEmpty then some [] else none
  | c :: rest =>
    if pat.isPrefixOf (c :: rest) then some ((c :: rest).drop pat.length)
    else dropAfterFirst pat rest

/-- Characters before the first `']'`, or `none` if there is no `']'`. -/
def takeToClose : List Char → Option (List Char)
  | [] => none
  | c :: rest => if c = ']' then some [] else (takeToClose rest).map (c :: ·)

/-- Modelled from the spec (§4.1): `ExtractID(title, tag)` returns the id
between the first tag prefix `"[<tag>-"` and the following `']'`, or `none`
if absent or malformed.  Not implemented as a function in the source. -/
def ExtractID (title tag : List Char) : Option (List Char) :=
  (dropAfterFirst (openPat tag) title).bind takeToClose

/-- A Monday.com board item, as consumed by `sync_manager.py`: the fields
`id`, `name` and the `text` values of its `column_values`. -/
structure MondayTask where
  id : List Char
  name : List Char
  columnTexts : List (List Char)
deriving DecidableEq

/-- A GitHub issue, as consumed by `sync_manager.py`: `number`, `title`,
`body` and label names. -/
structure GithubIssue where
  number : Nat
  title : List Char
  body : List Char
  labels : List (List Char)
deriving DecidableEq

/-- Label block of `GitHubIntegration.create_issue` (github_integration.py
lines 89-99): one priority label chosen by lowercased comparison with the
medium label as the default, then the fixed `enhancement` label. -/
def create_issue_labels (priority : List Char) : List (List Char) :=
  (if lower priority = "high".data then ["high priority".data]
   else if lower priority = "low".data then ["low priority".data]
   else ["medium priority".data]) ++ ["enhancement".data]

/-- Priority column value of `MondayDevIntegration.create_task`
(monday_integration.py lines 111-120): `priority_mapping.get(priority.lower(),
"Medium")`. -/
def create_task_priority (priority : List Char) : List Char :=
  if lower priority = "high".data then "High".data
  else if lower priority = "medium".data then "Medium".data
  else if lower priority = "low".data then "Low".data
  else "Medium".data

/-- Label-to-priority mapping of `sync_github_to_monday` (sync_manager.py
lines 148-154). -/
def priorityFromLabels (labels : List (List Char)) : List Char :=
  if labels.any fun l =>
      lower l = "high".data || lower l = "critical".data || lower l = "urgent".data then
    "high".data
  else if labels.any fun l => lower l = "low".data || lower l = "minor".data then
    "low".data
  else "medium".data

/-- Column scan of `sync_monday_to_github` (sync_manager.py lines 59-71):
folds the column texts into `(priority, status, area)`. -/
def scanCols : List (List Char) → List Char × List Char × List Char → List Char × List Char × List Char
  | [], acc => acc
  | t :: rest, (p, s, a) =>
    if t = "High".data ∨ t = "Medium".data ∨ t = "Low".data then
      scanCols rest (lower t, s, a)
    else if t = "Under discovery".data ∨ t = "Ready for Development".data ∨
        t = "Needs information".data then
      scanCols rest (p, t, a)
    else if t ≠ [] ∧ t.length < 50 then
      scanCols rest (p, s, t)
    else
      scanCols rest (p, s, a)

/-- Embedding of Python `str.title` for the ASCII strings used here: an
alphabetic character is uppercased after a non-alphabetic character and
lowercased otherwise. -/
def titleCaseAux : Bool → List Char → List Char
  | _, [] => []
  | prevAlpha, c :: rest =>
    (if c.isAlpha then (if prevAlpha then c.toLower else c.toUpper) else c) ::
      titleCaseAux c.isAlpha rest

/-- Python `str.title`. -/
def titleCase (s : List Char) : List Char := titleCaseAux false s

/-- The issue body template of `sync_monday_to_github` (sync_manager.py
lines 74-94), with the `datetime.now()` timestamp passed in as `now`. -/
def issueBody (taskId priority status area now : List Char) : List Char :=
  "**Monday.com Task**: ".data ++ taskId ++
  "\n**Priority**: ".data ++ titleCase priority ++
  "\n**Status**: ".data ++ status ++
  "\n**Area**: ".data ++ area ++
  "\n\n## Task Details\nThis issue was automatically synced from Monday.com board for tracking development progress.\n\n## Development Progress\n- [ ] Initial analysis and planning\n- [ ] Implementation\n- [ ] Testing and validation\n- [ ] Code review\n- [ ] Deployment\n\n## Commit History\n*Commits linked to this task will appear here automatically*\n\n---\n*Auto-synced from Monday.com on ".data
  ++ now ++ "*\n*Board: Product Backlog (RICE Methodology)*".data

/-- Duplicate check of `sync_monday_to_github` (sync_manager.py lines 50-56):
an issue "already exists" when the lowercased task name is a substring of a
lowercased issue title, or some issue title contains `"Monday-<task_id>"`. -/
def issueExistsFor (task : MondayTask) (issues : List GithubIssue) : Bool :=
  issues.any fun issue =>
    containsSub (lower task.name) (lower issue.title) ||
    containsSub ("Monday-".data ++ task.id) issue.title

/-- Result of one Monday → GitHub pass.  `createdIssues`, `skipped` and
`failed` mirror the run's created / already-exists / exception outcomes;
`attempted` instruments which tasks reached the `create_issue` call, and
`nextNum` is the issue-number counter of the modelled GitHub store. -/
structure MGReport where
  createdIssues : List GithubIssue
  attempted : List MondayTask
  skipped : List MondayTask
  failed : List MondayTask
  nextNum : Nat
deriving DecidableEq

/-- The task loop of `SyncManager.sync_monday_to_github` (sync_manager.py
lines 46-106).  `ok` is the success oracle for `github.create_issue`
(the per-item `try/except`); `existing` is the issue list fetched once
before the loop, `n` the next issue number assigned by the store. -/
def processTasks (ok : MondayTask → Bool) (now : List Char)
    (existing : List GithubIssue) : List MondayTask → Nat → MGReport
  | [], n => ⟨[], [], [], [], n⟩
  | task :: rest, n =>
    if issueExistsFor task existing then
      let r := processTasks ok now existing rest n
      ⟨r.createdIssues, r.attempted, task :: r.skipped, r.failed, r.nextNum⟩
    else
      let f := scanCols task.columnTexts ("medium".data, "Under discovery".data, [])
      let title := task.name ++ " [Monday-".data ++ task.id ++ "]".data
      if ok task then
        let issue : GithubIssue :=
          ⟨n, title, issueBody task.id f.1 f.2.1 f.2.2 now, create_issue_labels f.1⟩
        let r := processTasks ok now existing rest (n + 1)
        ⟨issue :: r.createdIssues, task :: r.attempted, r.skipped, r.failed, r.nextNum⟩
      else
        let r := processTasks ok now existing rest n
        ⟨r.createdIssues, task :: r.attempted, r.skipped, task :: r.failed, r.nextNum⟩

/-- Result of one GitHub → Monday pass, mirroring `MGReport`. -/
structure GMReport where
  createdTasks : List MondayTask
  attempted : List GithubIssue
  skipped : List GithubIssue
  failed : List GithubIssue
  nextId : Nat
deriving DecidableEq

/-- Duplicate check of `sync_github_to_monday` (sync_manager.py lines
136-143): some existing task matches by lowercased title substring or by
`"GitHub-<number>"` in its name, or the issue title itself contains
`"Monday-"`. -/
def taskExistsFor (issue : GithubIssue) (tasks : List MondayTask) : Bool :=
  tasks.any fun task =>
    containsSub (lower issue.title) (lower task.name) ||
    containsSub ("GitHub-".data ++ natChars issue.number) task.name ||
    containsSub ("Monday-".data) issue.title

/-- Column texts the Monday store reports for a task created by
`create_task` (monday_integration.py lines 106-126): status and priority
labels, the description text and the date. -/
def createdTaskCols (descr priority now : List Char) : List (List Char) :=
  ["Under discovery".data, create_task_priority priority, descr, now]

/-- The issue loop of `SyncManager.sync_github_to_monday` (sync_manager.py
lines 113-172).  `ok` is the success oracle for `monday.create_task`;
`existingTasks` is the task list fetched once before the loop, `n` the next
item id assigned by the board. -/
def processIssues (ok : GithubIssue → Bool) (now : List Char)
    (existingTasks : List MondayTask) : List GithubIssue → Nat → GMReport
  | [], n => ⟨[], [], [], [], n⟩
  | issue :: rest, n =>
    if !taskExistsFor issue existingTasks && !containsSub ("Monday-".data) issue.title then
      let priority := priorityFromLabels issue.labels
      let descr := "GitHub Issue #".data ++ natChars issue.number ++ ": ".data ++
        issue.body.take 200 ++ "...".data
      let title := issue.title ++ " [GitHub-".data ++ natChars issue.number ++ "]".data
      if ok issue then
        let task : MondayTask := ⟨natChars n, title, createdTaskCols descr priority now⟩
        let r := processIssues ok now existingTasks rest (n + 1)
        ⟨task :: r.createdTasks, issue :: r.attempted, r.skipped, r.failed, r.nextId⟩
      else
        let r := processIssues ok now existingTasks rest n
        ⟨r.createdTasks, issue :: r.attempted, r.skipped, issue :: r.failed, r.nextId⟩
    else
      let r := processIssues ok now existingTasks rest n
      ⟨r.createdTasks, r.attempted, issue :: r.skipped, r.failed, r.nextId⟩

/-- The two collections and the stores' fresh-id counters. -/
structure World where
  tasks : List MondayTask
  issues : List GithubIssue
  nextIssueNum : Nat
  nextTaskNum : Nat
deriving DecidableEq

/-- World step of `sync_monday_to_github`: run the task loop against the
issues fetched at the start, then the store holds the created issues. -/
def runMondayToGithub (ok : MondayTask → Bool) (now : List Char) (w : World) :
    World × MGReport :=
  let r := processTasks ok now w.issues w.tasks w.nextIssueNum
  (⟨w.tasks, w.issues ++ r.createdIssues, r.nextNum, w.nextTaskNum⟩, r)

/-- World step of `sync_github_to_monday`. -/
def runGithubToMonday (ok : GithubIssue → Bool) (now : List Char) (w : World) :
    World × GMReport :=
  let r := processIssues ok now w.tasks w.issues w.nextTaskNum
  (⟨w.tasks ++ r.createdTasks, w.issues, w.nextIssueNum, r.nextId⟩, r)

/-- Embedding of `SyncManager.sync_bidirectional` (sync_manager.py lines
179-193): Monday → GitHub first, then GitHub → Monday, each pass re-fetching the
collections, so pass 2 sees the issues created in pass 1. -/
def sync_bidirectional (okT : MondayTask → Bool) (okI : GithubIssue → Bool)
    (now : List Char) (w : World) : World × MGReport × GMReport :=
  let p1 := runMondayToGithub okT now w
  let p2 := runGithubToMonday okI now p1.1
  (p2.1, p1.2, p2.2)

/-- The rendered commit entry of `update_github_issue_with_commit`
(sync_manager.py lines 256-257), with `datetime.now()` passed as `now`. -/
def commitEntry (hash msg now : List Char) : List Char :=
  "\n### Commit ".data ++ hash.take 8 ++ " - ".data ++ now ++ "\n```\n".data ++
    msg ++ "\n```\n".data

/-- Placeholder replacement of `update_github_issue_with_commit`
(sync_manager.py lines 262-265): the `updated_body` value. -/
def updatedBody (currentBody entry : List Char) : List Char :=
  replaceAll ("*Commits linked to this task will appear here automatically*".data)
    ("*Latest commits for this task:*".data ++ entry) currentBody

/-- The body transformation of `update_github_issue_with_commit`
(sync_manager.py lines 253-274): replace the placeholder under the
`## Commit History` heading, or insert the entry before the `\n---` rule
when a previous entry's marker is present, or append a fresh heading. -/
def composeBody (currentBody entry : List Char) : List Char :=
  if containsSub ("## Commit History".data) currentBody then
    if containsSub ("*Latest commits for this task:*".data) currentBody then
      match findFrom ("*Latest commits for this task:*".data) (updatedBody currentBody entry) 0 with
      | some start =>
        match findFrom ("\n---".data) (updatedBody currentBody entry) start with
        | some ins =>
          (updatedBody currentBody entry).take ins ++ entry ++
            (updatedBody currentBody entry).drop ins
        | none => updatedBody currentBody entry
      | none => updatedBody currentBody entry
    else updatedBody currentBody entry
  else
    currentBody ++ "\n\n## Commit History".data ++ entry

/-- The JSON body assembled by `GitHubIntegration.update_issue`
(github_integration.py lines 115-131): a field is sent only when the
corresponding argument is truthy (neither `None` nor empty). -/
structure UpdateData where
  title : Option (List Char)
  body : Option (List Char)
  state : Option (List Char)
deriving DecidableEq

/-- Field assembly of `update_issue`: `if title: data["title"] = title` and
likewise for `body` and `state`. -/
def updateIssueData (title body st : Option (List Char)) : UpdateData :=
  ⟨(title.bind fun t => if t.isEmpty then none else some t),
   (body.bind fun b => if b.isEmpty then none else some b),
   (st.bind fun s => if s.isEmpty then none else some s)⟩

/-- Embedding of `SyncManager.update_github_issue_with_commit`
(sync_manager.py lines 236-283): find the first issue whose title contains
`"Monday-<task_id>"`;
with no match return `none` (the Python function logs a warning and returns
`False` without updating); otherwise compose the new body and issue the
update call, whose number and payload are returned. -/
def update_github_issue_with_commit (issues : List GithubIssue)
    (taskId hash msg now : List Char) : Option (Nat × UpdateData) :=
  match issues.find? (fun i => containsSub ("Monday-".data ++ taskId) i.title) with
  | none => none
  | some issue =>
    some (issue.number,
      updateIssueData none (some (composeBody issue.body (commitEntry hash msg now))) none)

/-! Concrete fixtures used by the evaluation theorems below. -/

/-- A fixed timestamp standing for `datetime.now()`. -/
def now0 : List Char := "2026-10-12 10:00:00".data

/-- Success oracle for `create_issue`: every call succeeds. -/
def allTasksOk : MondayTask → Bool := fun _ => true

/-- Success oracle for `create_task`: every call succeeds. -/
def allIssuesOk : GithubIssue → Bool := fun _ => true

/-- A user-created GitHub issue with no Monday counterpart. -/
def bugIssue : GithubIssue := ⟨5, "Bug X".data, [], []⟩

/-- Initial world for the idempotency run: empty Monday board, one
user-created GitHub issue. -/
def w0 : World := ⟨[], [bugIssue], 6, 1⟩

/-- A user-created GitHub issue whose title happens to contain the word
`Fix`. -/
def prefixIssue : GithubIssue := ⟨1, "Prefix login".data, [], []⟩

/-- A Monday task named `Fix`, carrying no marker anywhere. -/
def fixTask : MondayTask := ⟨"7".data, "Fix".data, []⟩

/-- A Monday task that is itself a mirror of GitHub issue 5. -/
def mirrorTask : MondayTask := ⟨"9".data, "Bug X [GitHub-5]".data, []⟩

/-- First rendered commit entry for the composer runs. -/
def e1c : List Char := commitEntry ("abc1234deadbeef".data) ("fix bug".data) now0

/-- Second rendered commit entry for the composer runs. -/
def e2c : List Char := commitEntry ("def5678feedface".data) ("more work".data) now0

/-- Two issues that both carry the marker of Monday task 7. -/
def i51 : GithubIssue := ⟨1, "A [Monday-7]".data, [], []⟩

/-- Second issue carrying the marker of Monday task 7. -/
def i52 : GithubIssue := ⟨2, "B [Monday-7]".data, [], []⟩

/-- Issue list with two matches for task 7. -/
def issuesC5 : List GithubIssue := [i51, i52]

/-- Scenario A task store: `T1("Fix login")`, `T2("Add report")`. -/
def scenarioTasks : List MondayTask :=
  [⟨"T1".data, "Fix login".data, []⟩, ⟨"T2".data, "Add report".data, []⟩]

/-- Single issue matched by the commit-linker witness run. -/
def linkIssue : GithubIssue := ⟨1, "A [Monday-7]".data, [], []⟩

/-- The update call produced by linking a commit to `linkIssue`. -/
def p0 : Nat × UpdateData :=
  (1, updateIssueData none
    (some (composeBody [] (commitEntry ("abc1234".data) ("fix".data) now0))) none)

/-! Helper lemmas. -/

/-- A list trivially contains a pattern it is built around. -/
theorem containsSub_of_append (pat u v : List Char) :
    containsSub pat (u ++ pat ++ v) = true := by
  induction u with
  | nil =>
    cases pat with
    | nil =>
      cases v with
      | nil => rfl
      | cons c cs => simp [containsSub]
    | cons p ps =>
      have h : (p :: ps).isPrefixOf ((p :: ps) ++ v) = true := by simp
      simp [containsSub, h]
  | cons c u ih =>
    have hsh : (c :: u) ++ pat ++ v = c :: (u ++ pat ++ v) := by simp
    rw [hsh]
    simp only [containsSub]
    rw [ih]
    simp

/-- Reading an id up to the closing bracket recovers a bracket-free id. -/
theorem takeToClose_append (id' rest : List Char) (hid : ']' ∉ id') :
    takeToClose (id' ++ ']' :: rest) = some id' := by
  induction id' with
  | nil => simp [takeToClose]
  | cons c cs ih =>
    have hc : ¬c = ']' := fun h => hid (by rw [h]; exact List.mem_cons_self _ _)
    have hcs : ']' ∉ cs := fun h => hid (List.mem_cons_of_mem _ h)
    simp [takeToClose, hc, ih hcs]

/-- Scanning a list that starts with the pattern stops immediately. -/
theorem dropAfterFirst_append_self (pat rest : List Char) (hne : pat ≠ []) :
    dropAfterFirst pat (pat ++ rest) = some rest := by
  cases pat with
  | nil => exact absurd rfl hne
  | cons p pt =>
    have h : (p :: pt).isPrefixOf ((p :: pt) ++ rest) = true := by simp
    simp only [List.cons_append] at h ⊢
    simp [dropAfterFirst, h, List.drop_left]

/-- Scanning walks through a region with no occurrence of the pattern. -/
theorem dropAfterFirst_append_of_no_match (pat rest : List Char) :
    ∀ title : List Char,
      (∀ s, s <:+ title → s ≠ [] → pat.isPrefixOf (s ++ rest) = false) →
      dropAfterFirst pat (title ++ rest) = dropAfterFirst pat rest
  | [], _ => rfl
  | c :: t, h => by
    have hc : pat.isPrefixOf ((c :: t) ++ rest) = false :=
      h (c :: t) (List.suffix_refl _) (by simp)
    have ih := dropAfterFirst_append_of_no_match pat rest t
      (fun s hs hne => h s (hs.trans (List.suffix_cons c t)) hne)
    simp only [List.cons_append] at hc ⊢
    simp only [dropAfterFirst, hc]
    simpa using ih

/-- No nonempty suffix of a title free of `"[<tag>-"` can start the marker
pattern, even across the boundary into the appended marker, provided the tag
does not itself contain an opening bracket. -/
theorem openPat_no_match (tag title X : List Char) (htag : '[' ∉ tag)
    (htitle : containsSub (openPat tag) title = false) :
    ∀ s, s <:+ title → s ≠ [] →
      (openPat tag).isPrefixOf (s ++ (openPat tag ++ X)) = false := by
  intro s hs hne
  by_contra hcon
  rw [Bool.not_eq_false] at hcon
  rw [ List.isPrefixOf_iff_prefix] at hcon
  rcases le_or_lt (openPat tag).length s.length with hle | hlt
  · have hps : (openPat tag) <+: s :=
      List.prefix_of_prefix_length_le hcon (List.prefix_append s (openPat tag ++ X)) hle
    obtain ⟨v, hv⟩ := hps
    obtain ⟨u, hu⟩ := hs
    have htrue : containsSub (openPat tag) title = true := by
      rw [← hu, ← hv, ← List.append_assoc]
      exact containsSub_of_append (openPat tag) u v
    rw [htitle] at htrue
    exact Bool.false_ne_true htrue
  · have hsp : s <+: openPat tag :=
      List.prefix_of_prefix_length_le (List.prefix_append s (openPat tag ++ X)) hcon
        (Nat.le_of_lt hlt)
    obtain ⟨t, ht⟩ := hsp
    obtain ⟨w, hw⟩ := hcon
    nth_rewrite 1 [← ht] at hw
    rw [List.append_assoc] at hw
    have htw : t ++ w = openPat tag ++ X := List.append_cancel_left hw
    have htlen : t.length < (openPat tag).length := by
      have hlen := congrArg List.length ht
      rw [List.length_append] at hlen
      have hslen : 0 < s.length := List.length_pos.mpr hne
      omega
    have htp : t <+: openPat tag :=
      List.prefix_of_prefix_length_le ⟨w, htw⟩ (List.prefix_append (openPat tag) X)
        (Nat.le_of_lt htlen)
    have h1 : List.count '[' (openPat tag) = 1 := by
      have hz : List.count '[' tag = 0 := List.count_eq_zero.mpr htag
      have hd : List.count '[' ['-'] = 0 := by decide
      simp [openPat, List.count_append, hz, hd]
    have hts : List.count '[' (openPat tag) = List.count '[' s + List.count '[' t := by
      rw [← ht, List.count_append]
    have hs1 : 1 ≤ List.count '[' s := by
      cases s with
      | nil => exact absurd rfl hne
      | cons a s' =>
        have hap : (a :: s') <+: openPat tag := ⟨t, ht⟩
        rw [openPat] at hap
        rw [List.cons_prefix_cons] at hap
        rw [hap.1]
        simp
    have ht1 : 1 ≤ List.count '[' t := by
      cases t with
      | nil =>
        exfalso
        rw [List.append_nil] at ht
        rw [ht] at hlt
        exact Nat.lt_irrefl _ hlt
      | cons a t' =>
        have hap : (a :: t') <+: openPat tag := htp
        rw [openPat] at hap
        rw [List.cons_prefix_cons] at hap
        rw [hap.1]
        simp
    omega

/-- Relation between first-match search and the existence test. -/
theorem find?_isSome_eq_any {α : Type} (p : α → Bool) :
    ∀ l : List α, (l.find? p).isSome = l.any p
  | [] => rfl
  | a :: l => by
    by_cases h : p a = true
    · simp [List.find?_cons, h]
    · rw [Bool.not_eq_true] at h
      simp [List.find?_cons, h, find?_isSome_eq_any p l]

/-- First-match search returns the head of the filtered list. -/
theorem find?_eq_head?_filter {α : Type} (p : α → Bool) :
    ∀ l : List α, l.find? p = (l.filter p).head?
  | [] => rfl
  | a :: l => by
    by_cases h : p a = true
    · rw [List.find?_cons_of_pos l h, List.filter_cons_of_pos h, List.head?_cons]
    · have h' : ¬p a := by simpa using h
      rw [List.find?_cons_of_neg l h', List.filter_cons_of_neg h']
      exact find?_eq_head?_filter p l

/-- Totality and failure accounting of the Monday → GitHub loop. -/
theorem processTasks_isolation (ok : MondayTask → Bool) (now : List Char)
    (existing : List GithubIssue) :
    ∀ (tasks : List MondayTask) (n : Nat),
      (processTasks ok now existing tasks n).createdIssues.length +
          (processTasks ok now existing tasks n).skipped.length +
          (processTasks ok now existing tasks n).failed.length = tasks.length ∧
        ((processTasks ok now existing tasks n).failed.all fun t => !ok t) = true
  | [], _ => ⟨rfl, rfl⟩
  | task :: rest, n => by
    by_cases hex : issueExistsFor task existing = true
    · have ih := processTasks_isolation ok now existing rest n
      simp only [processTasks, hex, if_true]
      constructor
      · simp only [List.length_cons]
        omega
      · exact ih.2
    · rw [Bool.not_eq_true] at hex
      by_cases hok : ok task = true
      · have ih := processTasks_isolation ok now existing rest (n + 1)
        simp only [processTasks, hex, Bool.false_eq_true, if_false, hok, if_true]
        constructor
        · simp only [List.length_cons]
          omega
        · exact ih.2
      · rw [Bool.not_eq_true] at hok
        have ih := processTasks_isolation ok now existing rest n
        simp only [processTasks, hex, Bool.false_eq_true, if_false, hok]
        constructor
        · simp only [List.length_cons]
          omega
        · simp only [List.all_cons, hok, Bool.not_false, Bool.true_and]
          exact ih.2

/-- Totality and failure accounting of the GitHub → Monday loop. -/
theorem processIssues_isolation (ok : GithubIssue → Bool) (now : List Char)
    (existingTasks : List MondayTask) :
    ∀ (issues : List GithubIssue) (n : Nat),
      (processIssues ok now existingTasks issues n).createdTasks.length +
          (processIssues ok now existingTasks issues n).skipped.length +
          (processIssues ok now existingTasks issues n).failed.length = issues.length ∧
        ((processIssues ok now existingTasks issues n).failed.all fun i => !ok i) = true
  | [], _ => ⟨rfl, rfl⟩
  | issue :: rest, n => by
    by_cases hg : (!taskExistsFor issue existingTasks &&
        !containsSub ("Monday-".data) issue.title) = true
    · by_cases hok : ok issue = true
      · have ih := processIssues_isolation ok now existingTasks rest (n + 1)
        simp only [processIssues, hg, if_true, hok]
        constructor
        · simp only [List.length_cons]
          omega
        · exact ih.2
      · rw [Bool.not_eq_true] at hok
        have ih := processIssues_isolation ok now existingTasks rest n
        simp only [processIssues, hg, if_true, hok, Bool.false_eq_true, if_false]
        constructor
        · simp only [List.length_cons]
          omega
        · simp only [List.all_cons, hok, Bool.not_false, Bool.true_and]
          exact ih.2
    · rw [Bool.not_eq_true] at hg
      have ih := processIssues_isolation ok now existingTasks rest n
      simp only [processIssues, hg, Bool.false_eq_true, if_false]
      constructor
      · simp only [List.length_cons]
        omega
      · exact ih.2

/-- Appending to a nonempty list on the left keeps it nonempty. -/
theorem append_left_ne_nil {α : Type} {l₁ : List α} (l₂ : List α) (h : l₁ ≠ []) :
    l₁ ++ l₂ ≠ [] := by
  cases l₁ with
  | nil => exact absurd rfl h
  | cons a l => simp

/-- Appending a nonempty list on the right keeps the result nonempty. -/
theorem append_right_ne_nil {α : Type} (l₁ : List α) {l₂ : List α} (h : l₂ ≠ []) :
    l₁ ++ l₂ ≠ [] := by
  intro hc
  exact h (List.append_eq_nil.mp hc).2

/-- A rendered commit entry is never the empty string. -/
theorem commitEntry_ne_nil (hash msg now : List Char) : commitEntry hash msg now ≠ [] := by
  unfold commitEntry
  apply append_left_ne_nil
  apply append_left_ne_nil
  apply append_left_ne_nil
  apply append_left_ne_nil
  apply append_left_ne_nil
  apply append_left_ne_nil
  decide

/-- Replacement never empties a nonempty subject when the replacement text
is nonempty. -/
theorem replaceAll_ne_nil (old new : List Char) (s : List Char) (hs : s ≠ [])
    (hnew : new ≠ []) : replaceAll old new s ≠ [] := by
  cases s with
  | nil => exact absurd rfl hs
  | cons c rest =>
    show replaceFuel old new (rest.length + 1) (c :: rest) ≠ []
    rw [replaceFuel]
    by_cases h : (!old.isEmpty && old.isPrefixOf (c :: rest)) = true
    · rw [if_pos h]
      exact append_left_ne_nil _ hnew
    · rw [Bool.not_eq_true] at h
      rw [h]
      simp

/-- The placeholder replacement keeps a nonempty body nonempty. -/
theorem updatedBody_ne_nil (cb e : List Char) (hcb : cb ≠ []) :
    updatedBody cb e ≠ [] := by
  unfold updatedBody
  apply replaceAll_ne_nil _ _ _ hcb
  apply append_left_ne_nil
  decide

/-- The composer never returns an empty body when the entry is nonempty. -/
theorem composeBody_ne_nil (cb e : List Char) (he : e ≠ []) : composeBody cb e ≠ [] := by
  unfold composeBody
  by_cases h : containsSub ("## Commit History".data) cb = true
  · have hcb : cb ≠ [] := by
      intro hnil
      rw [hnil] at h
      exact absurd h (by decide)
    rw [if_pos h]
    split
    · split
      · split
        · intro hc
          rcases List.append_eq_nil.mp hc with ⟨hl, -⟩
          rcases List.append_eq_nil.mp hl with ⟨-, hr⟩
          exact he hr
        · exact updatedBody_ne_nil cb e hcb
      · exact updatedBody_ne_nil cb e hcb
    · exact updatedBody_ne_nil cb e hcb
  · rw [Bool.not_eq_true] at h
    rw [h]
    simp only [Bool.false_eq_true, if_false]
    exact append_right_ne_nil _ he

/-! Claim theorems. -/

/-- C1: the idempotency claim fails on the code.  Starting from an empty
Monday board and one user-created GitHub issue, the first
`sync_bidirectional` run mirrors the issue into a Monday task; on the second
run, with no external changes, the Monday → GitHub pass creates one new
issue (the mirror task is mirrored back), so the second run's created count
is 1, not 0. -/
theorem c1_second_run_creates :
    ((sync_bidirectional allTasksOk allIssuesOk now0
        (sync_bidirectional allTasksOk allIssuesOk now0 w0).1).2.1.createdIssues.map
      fun i => i.title) = ["Bug X [GitHub-5] [Monday-1]".data] := by decide

/-- C2 counterexample: in the Task → Issue direction the create call is
reached for a Monday task whose own name contains the GitHub marker
`[GitHub-5]` — the pass has no loop guard, so the claim fails as stated. -/
theorem c2_counterexample :
    containsSub ("[GitHub-".data) mirrorTask.name = true ∧
    (processTasks allTasksOk now0 [] [mirrorTask] 1).attempted = [mirrorTask] := by decide

/-- C2 (amended): the loop guard holds in the Issue → Task direction only —
`sync_github_to_monday` never reaches the create call for a GitHub issue
whose title contains `"Monday-"`. -/
theorem c2_issue_to_task_guard (ok : GithubIssue → Bool) (now : List Char)
    (existingTasks : List MondayTask) :
    ∀ (issues : List GithubIssue) (n : Nat),
      ((processIssues ok now existingTasks issues n).attempted.all
        fun i => !containsSub ("Monday-".data) i.title) = true
  | [], _ => rfl
  | issue :: rest, n => by
    by_cases hg : (!taskExistsFor issue existingTasks &&
        !containsSub ("Monday-".data) issue.title) = true
    · have hg2 := hg
      simp only [Bool.and_eq_true, Bool.not_eq_true'] at hg2
      by_cases hok : ok issue = true
      · simp only [processIssues, hg, if_true, hok, List.all_cons]
        rw [hg2.2]
        simp only [Bool.not_false, Bool.true_and]
        exact c2_issue_to_task_guard ok now existingTasks rest (n + 1)
      · rw [Bool.not_eq_true] at hok
        simp only [processIssues, hg, if_true, hok, Bool.false_eq_true, if_false,
          List.all_cons]
        rw [hg2.2]
        simp only [Bool.not_false, Bool.true_and]
        exact c2_issue_to_task_guard ok now existingTasks rest n
    · rw [Bool.not_eq_true] at hg
      simp only [processIssues, hg, Bool.false_eq_true, if_false]
      exact c2_issue_to_task_guard ok now existingTasks rest n

/-- C3: the marker is not the sole authority.  The task `Fix` carries no
marker and no issue carries its marker `Monday-7`, yet the pass skips it as
already covered because the lowercased plain title is a substring of the
unrelated issue title `Prefix login`. -/
theorem c3_plain_title_skip :
    (processTasks allTasksOk now0 [prefixIssue] [fixTask] 2).createdIssues = [] ∧
    (processTasks allTasksOk now0 [prefixIssue] [fixTask] 2).skipped = [fixTask] ∧
    containsSub ("Monday-".data ++ fixTask.id) prefixIssue.title = false := by decide

/-- C4: the composer invariant fails on the code.  Starting from an empty
body, the first call appends the heading and the first entry, but the second
call returns the body unchanged — the body carries neither the placeholder
nor the `*Latest commits for this task:*` marker, so the second entry is
silently dropped and no trace of its hash appears. -/
theorem c4_second_entry_dropped :
    composeBody (composeBody [] e1c) e2c = composeBody [] e1c ∧
    containsSub ("def5678".data) (composeBody (composeBody [] e1c) e2c) = false := by decide

/-- C5 counterexample: with two issues both carrying the marker of task 7,
the linker still performs an update — on the first match — although the
number of matches is 2, not exactly 1, so the claim's "if and only if
exactly one" fails. -/
theorem c5_counterexample :
    ((issuesC5.filter fun i => containsSub ("Monday-".data ++ "7".data) i.title).length = 2) ∧
    (update_github_issue_with_commit issuesC5 ("7".data) ("abc1234".data) ("fix".data)
        now0).map (fun q => q.1) = some 1 := by decide

/-- C5 (amended): the linker performs the update if and only if at least one
issue title contains the marker, and when matches exist it updates the first
matching issue in list order (never none of them). -/
theorem c5_match_rule (issues : List GithubIssue) (tid hash msg now : List Char) :
    ((update_github_issue_with_commit issues tid hash msg now).isSome =
        issues.any fun i => containsSub ("Monday-".data ++ tid) i.title) ∧
    ∀ i rest,
      issues.filter (fun i => containsSub ("Monday-".data ++ tid) i.title) = i :: rest →
      (update_github_issue_with_commit issues tid hash msg now).map (fun q => q.1) =
        some i.number := by
  constructor
  · unfold update_github_issue_with_commit
    have h := find?_isSome_eq_any (fun i => containsSub ("Monday-".data ++ tid) i.title) issues
    cases hfind : issues.find? (fun i => containsSub ("Monday-".data ++ tid) i.title) with
    | none =>
      rw [hfind] at h
      exact h
    | some issue =>
      rw [hfind] at h
      exact h
  · intro i rest hfil
    have hfind : issues.find? (fun i => containsSub ("Monday-".data ++ tid) i.title) = some i := by
      rw [find?_eq_head?_filter, hfil]
      rfl
    unfold update_github_issue_with_commit
    rw [hfind]
    rfl

/-- C5 witness: on the two-match fixture the amended rule yields an update
call on the first matching issue. -/
theorem c5_witness :
    (update_github_issue_with_commit issuesC5 ("7".data) ("abc1234".data) ("fix".data)
        now0).map (fun q => q.1) = some i51.number :=
  (c5_match_rule issuesC5 ("7".data) ("abc1234".data) ("fix".data) now0).2 i51 [i52]
    (by decide)

/-- C6 counterexample: the round-trip law fails for a title that already
contains a marker with the same tag.  The id `2` contains no `]`, yet
extraction from `"[Monday-1]" ++ Encode("Monday", "2")` returns `1`, the id
of the pre-existing marker, not `2`. -/
theorem c6_counterexample :
    (']' ∉ "2".data) ∧
    ExtractID (("[Monday-1]".data) ++ Encode ("Monday".data) ("2".data)) ("Monday".data)
      = some ("1".data) ∧
    ExtractID (("[Monday-1]".data) ++ Encode ("Monday".data) ("2".data)) ("Monday".data)
      ≠ some ("2".data) := by decide

/-- C6 (amended): the round-trip law holds provided additionally that the tag
contains no `[` and the title does not already contain an occurrence of the
opening pattern `"[<tag>-"`: extracting from `title ++ Encode(tag, id)`
returns exactly `id`. -/
theorem c6_round_trip (title tag id' : List Char) (htag : '[' ∉ tag) (hid : ']' ∉ id')
    (htitle : containsSub (openPat tag) title = false) :
    ExtractID (title ++ Encode tag id') tag = some id' := by
  have hne : openPat tag ≠ [] := by simp [openPat]
  have hassoc : title ++ Encode tag id' = title ++ (openPat tag ++ (id' ++ [']'])) := by
    simp [Encode]
  unfold ExtractID
  rw [hassoc]
  rw [dropAfterFirst_append_of_no_match (openPat tag) (openPat tag ++ (id' ++ [']'])) title
    (openPat_no_match tag title (id' ++ [']']) htag htitle)]
  rw [dropAfterFirst_append_self _ _ hne]
  show takeToClose (id' ++ ']' :: []) = some id'
  exact takeToClose_append id' [] hid

/-- C6 witness: a marker-free title round-trips a bracket-free id. -/
theorem c6_witness :
    ExtractID (("Fix login".data) ++ Encode ("Monday".data) ("123".data)) ("Monday".data)
      = some ("123".data) :=
  c6_round_trip ("Fix login".data) ("Monday".data) ("123".data) (by decide) (by decide)
    (by decide)

/-- C7 counterexample: the unknown priority `urgent` is not passed through
unchanged — both translators replace it with the medium default. -/
theorem c7_counterexample :
    create_issue_labels ("urgent".data) = ["medium priority".data, "enhancement".data] ∧
    create_task_priority ("urgent".data) = "Medium".data ∧
    ("urgent".data) ∉ create_issue_labels ("urgent".data) ∧
    create_task_priority ("urgent".data) ≠ "urgent".data := by decide

/-- C7 (amended): for every priority value whose lowercase form is outside
the fixed table, both translators return the medium default rather than the
input; translation is total, so it never raises. -/
theorem c7_unknown_to_default (p : List Char) (h1 : lower p ≠ "high".data)
    (h2 : lower p ≠ "low".data) (h3 : lower p ≠ "medium".data) :
    create_issue_labels p = ["medium priority".data, "enhancement".data] ∧
    create_task_priority p = "Medium".data := by
  constructor
  · unfold create_issue_labels
    rw [if_neg h1, if_neg h2]
    rfl
  · unfold create_task_priority
    rw [if_neg h1, if_neg h3, if_neg h2]

/-- C7 witness: the amended rule applied to the unknown value `urgent`. -/
theorem c7_witness :
    create_issue_labels ("urgent".data) = ["medium priority".data, "enhancement".data] ∧
    create_task_priority ("urgent".data) = "Medium".data :=
  c7_unknown_to_default ("urgent".data) (by decide) (by decide) (by decide)

/-- C8: per-item failure isolation.  For every batch and every failure
oracle, both sync loops return a report (they are total functions, modelling
the per-item exception handlers): every source item is accounted for as
created, skipped or failed, and every recorded failure is an item whose
create call failed — a failing item never stops the rest of the batch. -/
theorem c8_per_item_isolation (okT : MondayTask → Bool) (okI : GithubIssue → Bool)
    (now : List Char) (existingIssues : List GithubIssue)
    (existingTasks : List MondayTask) (tasks : List MondayTask)
    (issues : List GithubIssue) (n m : Nat) :
    ((processTasks okT now existingIssues tasks n).createdIssues.length +
        (processTasks okT now existingIssues tasks n).skipped.length +
        (processTasks okT now existingIssues tasks n).failed.length = tasks.length ∧
      ((processTasks okT now existingIssues tasks n).failed.all fun t => !okT t) = true) ∧
    ((processIssues okI now existingTasks issues m).createdTasks.length +
        (processIssues okI now existingTasks issues m).skipped.length +
        (processIssues okI now existingTasks issues m).failed.length = issues.length ∧
      ((processIssues okI now existingTasks issues m).failed.all fun i => !okI i) = true) :=
  ⟨processTasks_isolation okT now existingIssues tasks n,
   processIssues_isolation okI now existingTasks issues m⟩

/-- C9: Scenario A.  With an empty issue tracker and tasks `T1 ("Fix login")`
and `T2 ("Add report")`, one Task → Issue pass creates exactly the two
issues titled with the source title followed by the source marker, skipping
and failing nothing. -/
theorem c9_scenario_a :
    ((processTasks allTasksOk now0 [] scenarioTasks 1).createdIssues.map fun i => i.title) =
      ["Fix login [Monday-T1]".data, "Add report [Monday-T2]".data] ∧
    (processTasks allTasksOk now0 [] scenarioTasks 1).skipped = [] ∧
    (processTasks allTasksOk now0 [] scenarioTasks 1).failed = [] := by decide

/-- C10: whenever the commit linker performs an update, the update payload
carries only a (nonempty) body: the title and state fields of the request
are absent, and `update_issue` has no labels parameter at all, so title,
state and labels of the matched issue are left unchanged. -/
theorem c10_body_only (issues : List GithubIssue) (tid hash msg now : List Char)
    (p : Nat × UpdateData)
    (hp : update_github_issue_with_commit issues tid hash msg now = some p) :
    p.2.title = none ∧ p.2.state = none ∧ p.2.body.isSome = true := by
  unfold update_github_issue_with_commit at hp
  cases hfind : issues.find? (fun i => containsSub ("Monday-".data ++ tid) i.title) with
  | none =>
    rw [hfind] at hp
    exact absurd hp (by simp)
  | some issue =>
    rw [hfind] at hp
    have hp' : (issue.number,
        updateIssueData none
          (some (composeBody issue.body (commitEntry hash msg now))) none) = p :=
      Option.some.inj hp
    rw [← hp']
    refine ⟨rfl, rfl, ?_⟩
    have hNB : composeBody issue.body (commitEntry hash msg now) ≠ [] :=
      composeBody_ne_nil _ _ (commitEntry_ne_nil hash msg now)
    cases hc : composeBody issue.body (commitEntry hash msg now) with
    | nil => exact absurd hc hNB
    | cons c l =>
      simp [updateIssueData, hc]

/-- C10 witness: the frame property instantiated on a concrete matched
issue. -/
theorem c10_witness : p0.2.title = none ∧ p0.2.state = none ∧ p0.2.body.isSome = true :=
  c10_body_only [linkIssue] ("7".data) ("abc1234".data) ("fix".data) now0 p0 (by decide)

end ItmsSync
